import Mathlib

/-!
Shallow embedding of `custom_components/amcrest/camera.py` (Amcrest IP camera
adapter for Home Assistant).

Modelling conventions:
* The vendor client (`self._camera`) is modelled by a `Device` record whose
  fields carry the outcome of each attribute read: `Except String v` where
  `.error e` models the client raising `AmcrestError(e)`.
* Device writes are modelled by an `Option String` disposition per call:
  `some e` means the write raises `AmcrestError(e)`, `none` means success.
* Error logging (`_LOGGER.error`) is modelled by a list of structured
  `LogEntry` values; `_LOGGER.debug` lines are not part of the error log.
* Python values that may fail `.split` (non-strings such as `None`) are
  modelled by `Option String`: `none` stands for any value without a `.split`
  method, on which Python raises `AttributeError`.
* Python dicts (`self._static_attrs`) are modelled as insertion-ordered
  association lists with in-place overwrite, matching dict semantics.
* An uncaught Python exception escaping a method is modelled by returning
  `none` from an `Option`-valued function.
-/

namespace Amcrest

/-- Module-level constant `OPTIMISTIC = True` in camera.py. -/
def OPTIMISTIC : Bool := true

/-- The three color-mode tokens `CBW = [CBW_COLOR, CBW_AUTO, CBW_BW]`. -/
def CBW : List String := ["color", "auto", "bw"]

/-- Python `list.index(x)`: position of the first occurrence, or `none`
modelling the `ValueError` Python raises when `x` is absent. -/
def pyListIndex (xs : List String) (x : String) : Option Nat :=
  xs.indexOf? x

/-- Python `xs[i]` on a list, for an `int` index `i`: supports negative
indices; `none` models the `IndexError` raised when out of range. -/
def pyIndex (xs : List String) (i : Int) : Option String :=
  if h : 0 ≤ i ∧ i < xs.length then
    some (xs.get ⟨i.toNat, by omega⟩)
  else if h' : -(xs.length : Int) ≤ i ∧ i < 0 then
    some (xs.get ⟨(i + xs.length).toNat, by omega⟩)
  else
    none

/-- Cut a character list at the first occurrence of `sep`: returns the part
before the occurrence and the part after it, or `none` when `sep` does not
occur. -/
def splitAtSep (sep : List Char) : List Char → Option (List Char × List Char)
  | [] => none
  | c :: cs =>
      if sep.isPrefixOf (c :: cs) then some ([], (c :: cs).drop sep.length)
      else
        match splitAtSep sep cs with
        | none => none
        | some (pre, post) => some (c :: pre, post)

/-- Python `str.split(sep)` for a non-empty `sep` (both call sites pass the
one-character separators `'='` and `':'`): split on every non-overlapping
occurrence of `sep`, keeping empty pieces.  `fuel` bounds the recursion;
`length + 1` is always enough since each occurrence consumes at least one
character. -/
def pySplitOn (fuel : Nat) (sep cs : List Char) : List (List Char) :=
  match fuel with
  | 0 => [cs]
  | fuel + 1 =>
      match splitAtSep sep cs with
      | none => [cs]
      | some (pre, post) => pre :: pySplitOn fuel sep post

/-- Python `str.strip()`: drop leading and trailing whitespace. -/
def pyStrip (cs : List Char) : List Char :=
  ((cs.dropWhile Char.isWhitespace).reverse.dropWhile Char.isWhitespace).reverse

/-- Model of `_extract_attr(resp, sep)`: `resp.split(sep)[-1].strip()`, returning
`None` on `AttributeError` (i.e. when `resp` is not a string).
`extract_attr none sep` models the non-string case. -/
def extract_attr (resp : Option String) (sep : String) : Option String :=
  match resp with
  | none => none
  | some s =>
      some (String.mk (pyStrip
        ((pySplitOn (s.data.length + 1) sep.data s.data).getLastD [])))

/-- Structured error-log entries written by `_LOGGER.error` calls. -/
inductive LogEntry where
  /-- From `update`: 'Could not get %s camera attributes due to error: %s'. -/
  | errGetAttrs (name detail : String)
  /-- From `_get_cam_attr`: 'Could not get %s camera %s due to error: %s'. -/
  | errGetAttr (name attr detail : String)
  /-- From `_update_static_attrs`: 'Unexpected %s camera software_information'. -/
  | errSwInfo (name : String)
  /-- A failed mutation command: camera name, attempted action, detail. -/
  | errCommand (name action detail : String)
  deriving Repr, DecidableEq

/-- The raw `software_information` value returned by the client, as seen by
the tuple-unpacking `sw_ver, sw_date = ...` in `_update_static_attrs`:
`notSeq` is any non-iterable value (unpacking raises `TypeError`), `seq xs`
an iterable of strings (`ValueError` unless it has exactly two elements). -/
inductive SwInfo where
  | notSeq
  | seq (xs : List String)
  deriving Repr, DecidableEq

instance {ε α : Type} [DecidableEq ε] [DecidableEq α] :
    DecidableEq (Except ε α) := fun x y =>
  match x, y with
  | .ok a, .ok b =>
      if h : a = b then .isTrue (by rw [h]) else .isFalse (by simp [h])
  | .error a, .error b =>
      if h : a = b then .isTrue (by rw [h]) else .isFalse (by simp [h])
  | .ok _, .error _ => .isFalse (by simp)
  | .error _, .ok _ => .isFalse (by simp)

/-- The device client: one field per attribute read that camera.py performs,
each carrying the read's outcome (`.error e` = `AmcrestError(e)` raised). -/
structure Device where
  device_type : Except String String
  hardware_version : Except String String
  machine_name : Except String String
  serial_number : Except String String
  software_information : Except String SwInfo
  video_enabled : Except String Bool
  record_mode : Except String String
  is_motion_detector_on : Except String Bool
  audio_enabled : Except String Bool
  day_night_color : Except String Int
  deriving Repr, DecidableEq

/-- Insertion-ordered string-keyed map, modelling a Python dict whose values
are `_extract_attr` results (`Option String`). -/
abbrev AttrMap := List (String × Option String)

/-- Python `d[k] = v`: overwrite in place if the key exists, else append. -/
def dictSet (m : AttrMap) (k : String) (v : Option String) : AttrMap :=
  if m.any (fun p => p.1 = k) then
    m.map (fun p => if p.1 = k then (k, v) else p)
  else
    m ++ [(k, v)]

/-- The cached fields of one `AmcrestCam` adapter: `is_streaming` (from the
`Camera` base class) plus the `_`-prefixed instance attributes. -/
structure CamState where
  is_streaming : Bool
  is_recording : Bool
  motion_detection_enabled : Option Bool
  audio_enabled : Option Bool
  color_bw : Option String
  model : Option String
  static_attrs : AttrMap
  deriving Repr, DecidableEq

/-- The cached state right after `AmcrestCam.__init__` (the base `Camera`
class initialises `is_streaming = False`). -/
def initState : CamState :=
  { is_streaming := false
    is_recording := false
    motion_detection_enabled := none
    audio_enabled := none
    color_bw := none
    model := none
    static_attrs := [] }

/-- A call issued to the device client by a mutation command. -/
inductive DevCall where
  | setRecordMode (v : Nat)
  | setMotionDetection (v : String)
  | setVideoEnabled (v : Bool)
  | setDayNightColor (v : Nat)
  | setAudioEnabled (v : Bool)
  | goToPreset (p : Int)
  | tour (start : Bool)
  deriving Repr, DecidableEq

/-- Result of running one mutation command: resulting cached state, the
device calls attempted, the error-log entries written, and how many times
`schedule_update_ha_state` was called. -/
structure CmdResult where
  state : CamState
  calls : List DevCall
  log : List LogEntry
  scheduled : Nat
  deriving Repr, DecidableEq

/-- Setter of `is_recording`: write `record_mode` (Manual=1 / Automatic=0); on
`AmcrestError` log and leave the cache alone; on success, if `OPTIMISTIC`,
cache the requested value and schedule a state refresh. -/
def is_recording_set (name : String) (enable : Bool) (devFail : Option String)
    (s : CamState) : CmdResult :=
  let call := DevCall.setRecordMode (if enable then 1 else 0)
  match devFail with
  | some e =>
      { state := s, calls := [call]
        log := [.errCommand name
          ((if enable then "enable" else "disable") ++ " recording") e]
        scheduled := 0 }
  | none =>
      if OPTIMISTIC then
        { state := { s with is_recording := enable }, calls := [call]
          log := [], scheduled := 1 }
      else
        { state := s, calls := [call], log := [], scheduled := 0 }

/-- Setter of `motion_detection_enabled`: writes `str(enable).lower()`. -/
def motion_detection_enabled_set (name : String) (enable : Bool)
    (devFail : Option String) (s : CamState) : CmdResult :=
  let call := DevCall.setMotionDetection (if enable then "true" else "false")
  match devFail with
  | some e =>
      { state := s, calls := [call]
        log := [.errCommand name
          ((if enable then "enable" else "disable") ++ " motion detection") e]
        scheduled := 0 }
  | none =>
      if OPTIMISTIC then
        { state := { s with motion_detection_enabled := some enable }
          calls := [call], log := [], scheduled := 1 }
      else
        { state := s, calls := [call], log := [], scheduled := 0 }

/-- Setter of `video_enabled`: writes the boolean; on optimistic success caches
into `is_streaming`. -/
def video_enabled_set (name : String) (enable : Bool) (devFail : Option String)
    (s : CamState) : CmdResult :=
  let call := DevCall.setVideoEnabled enable
  match devFail with
  | some e =>
      { state := s, calls := [call]
        log := [.errCommand name
          ((if enable then "enable" else "disable") ++ " video stream") e]
        scheduled := 0 }
  | none =>
      if OPTIMISTIC then
        { state := { s with is_streaming := enable }, calls := [call]
          log := [], scheduled := 1 }
      else
        { state := s, calls := [call], log := [], scheduled := 0 }

/-- Setter of `audio_enabled`. -/
def audio_enabled_set (name : String) (enable : Bool) (devFail : Option String)
    (s : CamState) : CmdResult :=
  let call := DevCall.setAudioEnabled enable
  match devFail with
  | some e =>
      { state := s, calls := [call]
        log := [.errCommand name
          ((if enable then "enable" else "disable") ++ " audio stream") e]
        scheduled := 0 }
  | none =>
      if OPTIMISTIC then
        { state := { s with audio_enabled := some enable }, calls := [call]
          log := [], scheduled := 1 }
      else
        { state := s, calls := [call], log := [], scheduled := 0 }

/-- Setter of `color_bw`: `self._camera.day_night_color = CBW.index(cbw)`.
`CBW.index` is evaluated inside the `try` but raises `ValueError` (not
`AmcrestError`) when `cbw` is not a token, so that exception escapes the
setter: modelled by the `none` result. -/
def color_bw_set (name : String) (cbw : String) (devFail : Option String)
    (s : CamState) : Option CmdResult :=
  match pyListIndex CBW cbw with
  | none => none
  | some i =>
      let call := DevCall.setDayNightColor i
      match devFail with
      | some e =>
          some { state := s, calls := [call]
                 log := [.errCommand name ("set color mode to " ++ cbw) e]
                 scheduled := 0 }
      | none =>
          if OPTIMISTIC then
            some { state := { s with color_bw := some cbw }, calls := [call]
                   log := [], scheduled := 1 }
          else
            some { state := s, calls := [call], log := [], scheduled := 0 }

/-- The supported cache-backed mutation commands (recording on/off, motion
detection on/off, video stream on/off, audio on/off, color-mode set). -/
inductive MutCmd where
  | setRecording (b : Bool)
  | setMotion (b : Bool)
  | setVideo (b : Bool)
  | setAudio (b : Bool)
  | setColor (c : String)
  deriving Repr, DecidableEq

/-- Dispatch one mutation command to its setter. -/
def runCmd (name : String) (cmd : MutCmd) (devFail : Option String)
    (s : CamState) : Option CmdResult :=
  match cmd with
  | .setRecording b => some (is_recording_set name b devFail s)
  | .setMotion b => some (motion_detection_enabled_set name b devFail s)
  | .setVideo b => some (video_enabled_set name b devFail s)
  | .setAudio b => some (audio_enabled_set name b devFail s)
  | .setColor c => color_bw_set name c devFail s

/-- A command is valid when its argument passes the service schema: the
color token must be one of `CBW` (enforced by `vol.In(CBW)`). -/
def validCmd : MutCmd → Bool
  | .setColor c => CBW.contains c
  | _ => true

/-- The single cache write the spec assigns to each command (used to state
that a successful optimistic command updates exactly that field). -/
def applyCmd (cmd : MutCmd) (s : CamState) : CamState :=
  match cmd with
  | .setRecording b => { s with is_recording := b }
  | .setMotion b => { s with motion_detection_enabled := some b }
  | .setVideo b => { s with is_streaming := b }
  | .setAudio b => { s with audio_enabled := some b }
  | .setColor c => { s with color_bw := some c }

/-- Model of `turn_off`: `self.is_recording = False` then `self.video_enabled = False`,
each sub-command absorbing its own device failure. -/
def turn_off (name : String) (recFail vidFail : Option String)
    (s : CamState) : CmdResult :=
  let r1 := is_recording_set name false recFail s
  let r2 := video_enabled_set name false vidFail r1.state
  { state := r2.state, calls := r1.calls ++ r2.calls
    log := r1.log ++ r2.log, scheduled := r1.scheduled + r2.scheduled }

/-- An attribute read attempted on the device client. -/
inductive ReadCall where
  | device_type
  | hardware_version
  | machine_name
  | serial_number
  | software_information
  | video_enabled
  | record_mode
  | is_motion_detector_on
  | audio_enabled
  | day_night_color
  deriving Repr, DecidableEq

/-- Model of `_get_cam_attr(attr)`: return the client attribute, or `None` after
logging when the client raises `AmcrestError`. -/
def get_cam_attr {α : Type} (name attr : String) (resp : Except String α) :
    Option α × List LogEntry :=
  match resp with
  | .ok v => (some v, [])
  | .error e => (none, [.errGetAttr name attr e])

/-- Model of `_update_cam_attr(attr)`: fetch the attribute; when it is not `None`,
store `_extract_attr(value)` into the static-attribute dict. -/
def update_cam_attr (name attr : String) (resp : Except String String)
    (m : AttrMap) : AttrMap × List LogEntry :=
  let r := get_cam_attr name attr resp
  match r.1 with
  | some str => (dictSet m attr (extract_attr (some str) "="), r.2)
  | none => (m, r.2)

/-- The first three steps of `_update_static_attrs`: fetch and store
`hardware_version`, `machine_name`, `serial_number` in order. -/
def update_hw_mn_sn (name : String) (dev : Device) (m : AttrMap) :
    AttrMap × List LogEntry :=
  let r1 := update_cam_attr name "hardware_version" dev.hardware_version m
  let r2 := update_cam_attr name "machine_name" dev.machine_name r1.1
  let r3 := update_cam_attr name "serial_number" dev.serial_number r2.1
  (r3.1, r1.2 ++ r2.2 ++ r3.2)

/-- Model of `_update_static_attrs`: the three simple attributes, then
`sw_ver, sw_date = self._get_cam_attr('software_information')` —
`TypeError` (value `None` or not iterable) is passed over silently,
`ValueError` (iterable of length ≠ 2) logs 'Unexpected ... camera
software_information', and a two-element value stores `software_version`
and `software_build`. -/
def update_static_attrs (name : String) (dev : Device) (m : AttrMap) :
    AttrMap × List LogEntry :=
  let r3 := update_hw_mn_sn name dev m
  let sw := get_cam_attr name "software_information" dev.software_information
  match sw.1 with
  | none => (r3.1, r3.2 ++ sw.2)
  | some .notSeq => (r3.1, r3.2 ++ sw.2)
  | some (.seq [a, b]) =>
      (dictSet (dictSet r3.1 "software_version" (extract_attr (some a) "="))
        "software_build" (extract_attr (some b) ":"), r3.2 ++ sw.2)
  | some (.seq _) => (r3.1, r3.2 ++ sw.2 ++ [.errSwInfo name])

/-- The reads `_update_static_attrs` attempts (in order). -/
def staticAttrReads : List ReadCall :=
  [.hardware_version, .machine_name, .serial_number, .software_information]

/-- Result of one `update` (full refresh) run. -/
structure UpdResult where
  state : CamState
  reads : List ReadCall
  log : List LogEntry
  deriving Repr, DecidableEq

/-- The first two statements of the `try` in `AmcrestCam.update`: refresh
`_model` while it is `None` (its reads go through `_get_cam_attr`, which
absorbs `AmcrestError`), and the static attributes while the dict is empty.
Returns the state together with the reads attempted and the errors logged. -/
def pre_refresh (name : String) (dev : Device) (s : CamState) :
    CamState × List ReadCall × List LogEntry :=
  let mReads : List ReadCall :=
    if s.model = none then [.device_type] else []
  let mLog : List LogEntry :=
    if s.model = none then (get_cam_attr name "device_type" dev.device_type).2
    else []
  let m1 : Option String :=
    if s.model = none then
      extract_attr (get_cam_attr name "device_type" dev.device_type).1 "="
    else s.model
  -- the model step leaves `static_attrs` alone, so the second gate tests
  -- the incoming `s.static_attrs`
  let sReads : List ReadCall :=
    if s.static_attrs = [] then staticAttrReads else []
  let sLog : List LogEntry :=
    if s.static_attrs = [] then (update_static_attrs name dev s.static_attrs).2
    else []
  let sAttrs : AttrMap :=
    if s.static_attrs = [] then (update_static_attrs name dev s.static_attrs).1
    else s.static_attrs
  ({ s with model := m1, static_attrs := sAttrs },
   mReads ++ sReads, mLog ++ sLog)

/-- Model of `AmcrestCam.update`: refresh `_model` (only while `None`) and the static
attributes (only while the dict is empty), then read the five dynamic
attributes in order, assigning each cache field as its read completes; the
first `AmcrestError` among those reads jumps to the handler, which logs
'Could not get %s camera attributes due to error: %s' and returns, leaving
the remaining fields at their previous values. `CBW[day_night_color]` out
of range raises an uncaught `IndexError`, modelled by the `none` result. -/
def update (name : String) (dev : Device) (s : CamState) :
    Option UpdResult :=
  match pre_refresh name dev s with
  | (s2, reads0, log0) =>
  match dev.video_enabled with
  | .error e =>
      some ⟨s2, reads0 ++ [.video_enabled], log0 ++ [.errGetAttrs name e]⟩
  | .ok ve =>
    let s3 := { s2 with is_streaming := ve }
    match dev.record_mode with
    | .error e =>
        some ⟨s3, reads0 ++ [.video_enabled, .record_mode],
          log0 ++ [.errGetAttrs name e]⟩
    | .ok rm =>
      let s4 := { s3 with is_recording := rm = "Manual" }
      match dev.is_motion_detector_on with
      | .error e =>
          some ⟨s4,
            reads0 ++ [.video_enabled, .record_mode, .is_motion_detector_on],
            log0 ++ [.errGetAttrs name e]⟩
      | .ok md =>
        let s5 := { s4 with motion_detection_enabled := some md }
        match dev.audio_enabled with
        | .error e =>
            some ⟨s5,
              reads0 ++ [.video_enabled, .record_mode,
                .is_motion_detector_on, .audio_enabled],
              log0 ++ [.errGetAttrs name e]⟩
        | .ok au =>
          let s6 := { s5 with audio_enabled := some au }
          match dev.day_night_color with
          | .error e =>
              some ⟨s6,
                reads0 ++ [.video_enabled, .record_mode,
                  .is_motion_detector_on, .audio_enabled, .day_night_color],
                log0 ++ [.errGetAttrs name e]⟩
          | .ok i =>
            match pyIndex CBW i with
            | none => none
            | some c =>
                some ⟨{ s6 with color_bw := some c },
                  reads0 ++ [.video_enabled, .record_mode,
                    .is_motion_detector_on, .audio_enabled, .day_night_color],
                  log0⟩

/-- The detail of the first `AmcrestError` among the five direct dynamic
reads of `update`, in program order, if any. -/
def firstReadFailure (dev : Device) : Option String :=
  match dev.video_enabled with
  | .error e => some e
  | .ok _ =>
    match dev.record_mode with
    | .error e => some e
    | .ok _ =>
      match dev.is_motion_detector_on with
      | .error e => some e
      | .ok _ =>
        match dev.audio_enabled with
        | .error e => some e
        | .ok _ =>
          match dev.day_night_color with
          | .error e => some e
          | .ok _ => none

/-- One registered camera adapter as the Service Router sees it. -/
structure CamRef where
  entity_id : String
  should_poll : Bool
  deriving Repr, DecidableEq

/-- Model of `target_cameras(service)`: all registered cameras when the service call
names no entity ids (`entityIds = none`), else the registered cameras whose
`entity_id` is among the given ids. The absent-registry case
(`DATA_AMCREST_CAMS not in hass.data`) behaves as the empty registry. -/
def target_cameras (registry : List CamRef) (entityIds : Option (List String)) :
    List CamRef :=
  registry.filter (fun c =>
    match entityIds with
    | none => true
    | some ids => ids.contains c.entity_id)

/-- The named services routed through `async_service_handler`. -/
inductive SvcName where
  | enableRec
  | disableRec
  | audioOn
  | audioOff
  | tourOn
  | tourOff
  deriving Repr, DecidableEq

/-- Model of `async_service_handler`: dispatch the named command to each targeted
camera in registry order; the dispatched events carry the target's entity
id. -/
def svc_dispatches (registry : List CamRef) (entityIds : Option (List String))
    (svc : SvcName) : List (String × SvcName) :=
  (target_cameras registry entityIds).map (fun c => (c.entity_id, svc))

/-- The update tasks `async_service_handler` collects: one
`async_update_ha_state(True)` per targeted camera that polls. -/
def svc_update_tasks (registry : List CamRef)
    (entityIds : Option (List String)) : List String :=
  ((target_cameras registry entityIds).filter (fun c => c.should_poll)).map
    (fun c => c.entity_id)

/-- The three stream-source modes (`STREAM_SOURCE_LIST`, defined in the
package `__init__`, maps the configuration tokens snapshot/mjpeg/rtsp). -/
inductive StreamMode where
  | snapshot
  | mjpeg
  | rtsp
  deriving Repr, DecidableEq

/-- Observable actions of `handle_async_mjpeg_stream`. -/
inductive StreamAction where
  /-- Delegation to the base class's snapshot loop. -/
  | snapshotLoop
  /-- Direct proxy: `websession.get` and `async_aiohttp_proxy_web` of the MJPEG url. -/
  | proxyWeb (url : String)
  /-- Transcoder start: `stream.open_camera(streaming_url, extra_cmd=...)`. -/
  | openCamera (url extra : String)
  /-- Relay via `async_aiohttp_proxy_stream` of the transcoder's output. -/
  | proxyStream
  /-- Transcoder stop: `stream.close()`. -/
  | closeStream
  deriving Repr, DecidableEq

/-- How the relay coroutine of the rtsp branch ends: normal return, an
exception, or cancellation by the caller's disconnect. -/
inductive RelayOutcome where
  | ok
  | error
  | cancelled
  deriving Repr, DecidableEq

/-- Model of `handle_async_mjpeg_stream`: snapshot mode delegates to the base class;
mjpeg mode proxies the camera's MJPEG url; rtsp mode opens the ffmpeg
transcoder, relays its output inside `try`, and runs `await stream.close()`
in the `finally`, which Python executes on normal return, on any raised
exception, and on cancellation alike. -/
def handle_async_mjpeg_stream (mode : StreamMode) (mjpegUrl rtspUrl extra : String)
    (outcome : RelayOutcome) : List StreamAction :=
  match mode with
  | .snapshot => [.snapshotLoop]
  | .mjpeg => [.proxyWeb mjpegUrl]
  | .rtsp =>
      let relayed :=
        match outcome with
        | .ok => [StreamAction.proxyStream]
        | .error => [StreamAction.proxyStream]
        | .cancelled => [StreamAction.proxyStream]
      [StreamAction.openCamera rtspUrl extra] ++ relayed
        ++ [StreamAction.closeStream]

/-- Whether a read targets one of the static descriptive attributes fetched
by `_update_static_attrs`. -/
def isStaticRead : ReadCall → Bool
  | .hardware_version => true
  | .machine_name => true
  | .serial_number => true
  | .software_information => true
  | _ => false

/-- A device on which every read succeeds. -/
def devAllOk : Device :=
  { device_type := .ok "type=IPC"
    hardware_version := .ok "hw=1.0"
    machine_name := .ok "mn=AMC"
    serial_number := .ok "sn=42"
    software_information := .ok (.seq ["V=2.4", "build:2019-01-01"])
    video_enabled := .ok false
    record_mode := .ok "Automatic"
    is_motion_detector_on := .ok true
    audio_enabled := .ok false
    day_night_color := .ok 0 }

/-- A device whose `video_enabled` read succeeds (now `True`) but whose
`record_mode` read raises `AmcrestError("boom")`. -/
def devRecFail : Device :=
  { devAllOk with video_enabled := .ok true, record_mode := .error "boom" }

/-- A device whose `software_information` is a non-iterable value. -/
def devSwNotSeq : Device :=
  { devAllOk with software_information := .ok .notSeq }

/-- A cached state whose static-attribute dict is partially populated:
only `hardware_version` was stored by an earlier refresh. -/
def statePartial : CamState :=
  { initState with static_attrs := [("hardware_version", some "1.0")] }

/-- Whether a raw `software_information` value fails two-element unpacking:
a client error (`_get_cam_attr` returns `None`), a non-iterable value, or an
iterable whose length is not two. -/
def swMalformed : Except String SwInfo → Bool
  | .error _ => true
  | .ok .notSeq => true
  | .ok (.seq xs) => xs.length ≠ 2

-- Helper lemmas

/-- The model/static prefix of `update` never touches the five dynamic
cache fields. -/
theorem pre_refresh_dynamic (name : String) (dev : Device) (s : CamState) :
    (pre_refresh name dev s).1.is_streaming = s.is_streaming ∧
    (pre_refresh name dev s).1.is_recording = s.is_recording ∧
    (pre_refresh name dev s).1.motion_detection_enabled
      = s.motion_detection_enabled ∧
    (pre_refresh name dev s).1.audio_enabled = s.audio_enabled ∧
    (pre_refresh name dev s).1.color_bw = s.color_bw :=
  ⟨rfl, rfl, rfl, rfl, rfl⟩

/-- When the static-attribute dict is already non-empty, the model/static
prefix of `update` leaves it unchanged and attempts no static read. -/
theorem pre_refresh_static_stable (name : String) (dev : Device)
    (s : CamState) (h : s.static_attrs ≠ []) :
    (pre_refresh name dev s).1.static_attrs = s.static_attrs ∧
    (pre_refresh name dev s).2.1.filter isStaticRead = [] := by
  constructor
  · simp [pre_refresh, h]
  · simp only [pre_refresh, h, if_neg, ite_false]
    split <;> simp [isStaticRead]

-- C4

/-- C4: `turn_off` always issues both sub-commands — disable recording then
disable video streaming, in that order — and the second is attempted even
when the first sub-command's device call fails. -/
theorem turn_off_attempts_both (name : String)
    (recFail vidFail : Option String) (s : CamState) :
    (turn_off name recFail vidFail s).calls =
      [DevCall.setRecordMode 0, DevCall.setVideoEnabled false] := by
  cases recFail <;> cases vidFail <;>
    simp [turn_off, is_recording_set, video_enabled_set, OPTIMISTIC]

-- C5

/-- C5: for each of the three color tokens, the setter writes the token's
ordinal position to the device, and indexing `CBW` with that ordinal (the
read-back `update` performs) returns the original token. -/
theorem color_bw_roundtrip (name : String) (s : CamState) (c : String)
    (h : c ∈ CBW) :
    ∃ i r, pyListIndex CBW c = some i ∧
      color_bw_set name c none s = some r ∧
      r.calls = [DevCall.setDayNightColor i] ∧
      pyIndex CBW (Int.ofNat i) = some c ∧
      r.state.color_bw = some c := by
  simp only [CBW, List.mem_cons, List.mem_singleton, List.not_mem_nil,
    or_false] at h
  rcases h with h | h | h <;> subst h
  · exact ⟨0, _, rfl, rfl, rfl, by decide, rfl⟩
  · exact ⟨1, _, rfl, rfl, rfl, by decide, rfl⟩
  · exact ⟨2, _, rfl, rfl, rfl, by decide, rfl⟩

/-- C5 witness at the token `"bw"`. -/
theorem color_bw_roundtrip_witness :
    ("bw" ∈ CBW) ∧
    (∃ i r, pyListIndex CBW "bw" = some i ∧
      color_bw_set "cam" "bw" none initState = some r ∧
      r.calls = [DevCall.setDayNightColor i] ∧
      pyIndex CBW (Int.ofNat i) = some "bw" ∧
      r.state.color_bw = some "bw") :=
  ⟨by decide, color_bw_roundtrip "cam" initState "bw" (by decide)⟩

-- C6

/-- C6 counterexample: the malformed, separator-free string `"abc"` makes
`_extract_attr` return the whole string, not `None`. -/
theorem extract_attr_malformed_cex :
    extract_attr (some "abc") "=" = some "abc" ∧
    (some "abc" : Option String) ≠ none :=
  ⟨rfl, by simp⟩

/-- C6 (amended): `_extract_attr` yields `"1.2.3"` and `"2021-01-01"` on the
two specified inputs, returns `None` on every non-string input, and never
raises on string input — but a separator-free string yields the whole
trimmed string rather than `None`. -/
theorem extract_attr_spec (sep s : String) :
    extract_attr none sep = none ∧
    extract_attr (some "software version=1.2.3") "=" = some "1.2.3" ∧
    extract_attr (some "build:2021-01-01") ":" = some "2021-01-01" ∧
    (extract_attr (some s) sep).isSome = true ∧
    extract_attr (some "abc") "=" = some "abc" :=
  ⟨rfl, rfl, rfl, rfl, rfl⟩

-- C2

/-- C2: for every supported mutation command with a schema-valid argument,
a device-client failure on the write logs one error naming the camera, the
attempted action and the failure detail, leaves every cached field
unchanged, schedules no refresh, issues exactly one device call (no retry),
and propagates no exception. -/
theorem mutation_failure_frame (name : String) (cmd : MutCmd) (e : String)
    (s : CamState) (hv : validCmd cmd = true) :
    ∃ r, runCmd name cmd (some e) s = some r ∧
      r.state = s ∧ r.scheduled = 0 ∧ r.calls.length = 1 ∧
      ∃ action, r.log = [LogEntry.errCommand name action e] := by
  cases cmd with
  | setRecording b => exact ⟨_, rfl, rfl, rfl, rfl, _, rfl⟩
  | setMotion b => exact ⟨_, rfl, rfl, rfl, rfl, _, rfl⟩
  | setVideo b => exact ⟨_, rfl, rfl, rfl, rfl, _, rfl⟩
  | setAudio b => exact ⟨_, rfl, rfl, rfl, rfl, _, rfl⟩
  | setColor c =>
      simp only [validCmd] at hv
      have hm : c ∈ CBW := List.elem_iff.mp hv
      simp only [CBW, List.mem_cons, List.mem_singleton,
        List.not_mem_nil, or_false] at hm
      rcases hm with h | h | h <;> subst h <;>
        exact ⟨_, rfl, rfl, rfl, rfl, _, rfl⟩

/-- C2 witness at the audio-on command. -/
theorem mutation_failure_frame_witness :
    validCmd (MutCmd.setAudio true) = true ∧
    ∃ r, runCmd "cam" (MutCmd.setAudio true) (some "err") initState = some r ∧
      r.state = initState ∧ r.scheduled = 0 ∧ r.calls.length = 1 ∧
      ∃ action, r.log = [LogEntry.errCommand "cam" action "err"] :=
  ⟨rfl, mutation_failure_frame "cam" (MutCmd.setAudio true) "err" initState rfl⟩

-- C3

/-- C3: `OPTIMISTIC` is configured true, and for every supported mutation
command with a schema-valid argument, a successful device write updates
exactly the one cached field corresponding to the command (to the requested
value), leaves the rest of the state as `applyCmd` describes (in particular
`model` and the static attributes untouched), logs nothing, and schedules
exactly one host state refresh. -/
theorem mutation_success_optimistic (name : String) (cmd : MutCmd)
    (s : CamState) (hv : validCmd cmd = true) :
    OPTIMISTIC = true ∧
    ∃ r, runCmd name cmd none s = some r ∧
      r.state = applyCmd cmd s ∧ r.log = [] ∧ r.scheduled = 1 ∧
      r.state.model = s.model ∧ r.state.static_attrs = s.static_attrs := by
  refine ⟨rfl, ?_⟩
  cases cmd with
  | setRecording b => exact ⟨_, rfl, rfl, rfl, rfl, rfl, rfl⟩
  | setMotion b => exact ⟨_, rfl, rfl, rfl, rfl, rfl, rfl⟩
  | setVideo b => exact ⟨_, rfl, rfl, rfl, rfl, rfl, rfl⟩
  | setAudio b => exact ⟨_, rfl, rfl, rfl, rfl, rfl, rfl⟩
  | setColor c =>
      simp only [validCmd] at hv
      have hm : c ∈ CBW := List.elem_iff.mp hv
      simp only [CBW, List.mem_cons, List.mem_singleton,
        List.not_mem_nil, or_false] at hm
      rcases hm with h | h | h <;> subst h <;>
        exact ⟨_, rfl, rfl, rfl, rfl, rfl, rfl⟩

/-- C3 witness at the set-color-mode command with token `"auto"`. -/
theorem mutation_success_optimistic_witness :
    validCmd (MutCmd.setColor "auto") = true ∧
    (OPTIMISTIC = true ∧
    ∃ r, runCmd "cam" (MutCmd.setColor "auto") none initState = some r ∧
      r.state = applyCmd (MutCmd.setColor "auto") initState ∧
      r.log = [] ∧ r.scheduled = 1 ∧
      r.state.model = initState.model ∧
      r.state.static_attrs = initState.static_attrs) :=
  ⟨rfl, mutation_success_optimistic "cam" (MutCmd.setColor "auto")
    initState rfl⟩

-- C1

/-- C1 counterexample: starting from the state produced by a fully
successful refresh (device `devAllOk`, log empty, `is_streaming = False`), a
refresh against `devRecFail` — whose `video_enabled` read succeeds with
`True` before its `record_mode` read raises — leaves `is_streaming = True`:
a cached value does not retain its value from the previous successful
refresh, so the aborted refresh is partially applied. -/
theorem update_partial_refresh_cex :
    firstReadFailure devRecFail = some "boom" ∧
    (update "cam" devAllOk initState).map (fun r => r.log) = some [] ∧
    (update "cam" devAllOk initState).map (fun r => r.state.is_streaming)
      = some false ∧
    ((update "cam" devAllOk initState).bind
      (fun r1 => update "cam" devRecFail r1.state)).map
        (fun r => r.state.is_streaming) = some true :=
  ⟨rfl, rfl, rfl, rfl⟩

/-- C1 (amended): a device-read failure during `update` aborts the refresh
cycle — the error is logged with the camera name and detail (as the last
log entry), and every cached field whose read had not yet happened keeps
its previous value (in particular `color_bw`, read last, always does) —
but fields assigned before the failing read keep their freshly read
values, so the cache can be left partially updated. -/
theorem update_failure_aborts (name : String) (dev : Device) (s : CamState)
    (e : String) (h : firstReadFailure dev = some e) :
    ∃ r, update name dev s = some r ∧
      r.log.getLast? = some (LogEntry.errGetAttrs name e) ∧
      r.state.color_bw = s.color_bw ∧
      (∀ e0, dev.video_enabled = Except.error e0 →
        r.state.is_streaming = s.is_streaming ∧
        r.state.is_recording = s.is_recording ∧
        r.state.motion_detection_enabled = s.motion_detection_enabled ∧
        r.state.audio_enabled = s.audio_enabled) ∧
      (∀ e0, dev.record_mode = Except.error e0 →
        r.state.is_recording = s.is_recording ∧
        r.state.motion_detection_enabled = s.motion_detection_enabled ∧
        r.state.audio_enabled = s.audio_enabled) ∧
      (∀ e0, dev.is_motion_detector_on = Except.error e0 →
        r.state.motion_detection_enabled = s.motion_detection_enabled ∧
        r.state.audio_enabled = s.audio_enabled) ∧
      (∀ e0, dev.audio_enabled = Except.error e0 →
        r.state.audio_enabled = s.audio_enabled) := by
  obtain ⟨hd1, hd2, hd3, hd4, hd5⟩ := pre_refresh_dynamic name dev s
  rcases hpre : pre_refresh name dev s with ⟨s2, reads0, log0⟩
  rw [hpre] at hd1 hd2 hd3 hd4 hd5
  simp only [update]
  rw [hpre]
  rcases hv : dev.video_enabled with ev | vv
  · simp only [firstReadFailure, hv] at h
    obtain rfl : ev = e := Option.some.inj h
    refine ⟨_, rfl, List.getLast?_concat _, hd5, ?_, ?_, ?_, ?_⟩
    · exact fun e0 _ => ⟨hd1, hd2, hd3, hd4⟩
    · exact fun e0 _ => ⟨hd2, hd3, hd4⟩
    · exact fun e0 _ => ⟨hd3, hd4⟩
    · exact fun e0 _ => hd4
  · simp only [firstReadFailure, hv] at h
    rcases hr : dev.record_mode with er | rv
    · simp only [hr] at h
      obtain rfl : er = e := Option.some.inj h
      refine ⟨_, rfl, List.getLast?_concat _, hd5, ?_, ?_, ?_, ?_⟩
      · intro e0 hco; cases hco
      · exact fun e0 _ => ⟨hd2, hd3, hd4⟩
      · exact fun e0 _ => ⟨hd3, hd4⟩
      · exact fun e0 _ => hd4
    · simp only [hr] at h
      rcases hm : dev.is_motion_detector_on with em | mv
      · simp only [hm] at h
        obtain rfl : em = e := Option.some.inj h
        refine ⟨_, rfl, List.getLast?_concat _, hd5, ?_, ?_, ?_, ?_⟩
        · intro e0 hco; cases hco
        · intro e0 hco; cases hco
        · exact fun e0 _ => ⟨hd3, hd4⟩
        · exact fun e0 _ => hd4
      · simp only [hm] at h
        rcases ha : dev.audio_enabled with ea | av
        · simp only [ha] at h
          obtain rfl : ea = e := Option.some.inj h
          refine ⟨_, rfl, List.getLast?_concat _, hd5, ?_, ?_, ?_, ?_⟩
          · intro e0 hco; cases hco
          · intro e0 hco; cases hco
          · intro e0 hco; cases hco
          · exact fun e0 _ => hd4
        · simp only [ha] at h
          rcases hc : dev.day_night_color with ec | cv
          · simp only [hc] at h
            obtain rfl : ec = e := Option.some.inj h
            refine ⟨_, rfl, List.getLast?_concat _, hd5, ?_, ?_, ?_, ?_⟩
            · intro e0 hco; cases hco
            · intro e0 hco; cases hco
            · intro e0 hco; cases hco
            · intro e0 hco; cases hco
          · simp only [hc] at h
            cases h

/-- C1 witness: a concrete failing refresh. -/
theorem update_failure_aborts_witness :
    firstReadFailure devRecFail = some "boom" ∧
    ∃ r, update "cam" devRecFail initState = some r ∧
      r.state.color_bw = initState.color_bw := by
  refine ⟨rfl, ?_⟩
  obtain ⟨r, hr, _, hcol, _⟩ :=
    update_failure_aborts "cam" devRecFail initState "boom" rfl
  exact ⟨r, hr, hcol⟩

-- C7

/-- The three leading static-attribute updates only ever log
attribute-fetch errors, never the software-information parse error. -/
theorem errSwInfo_not_in_hw_mn_sn (name nm : String) (dev : Device)
    (m : AttrMap) :
    LogEntry.errSwInfo nm ∉ (update_hw_mn_sn name dev m).2 := by
  unfold update_hw_mn_sn
  rcases h1 : dev.hardware_version with e1 | v1 <;>
  rcases h2 : dev.machine_name with e2 | v2 <;>
  rcases h3 : dev.serial_number with e3 | v3 <;>
    simp [update_cam_attr, get_cam_attr]

/-- C7 counterexample: with a non-decomposable (non-iterable)
`software_information` value, the refresh logs nothing at all (the
`TypeError` branch is `pass`), while the claim demands an error log for
every malformed shape; the two software attributes are skipped and the
three earlier static attributes are kept. -/
theorem sw_info_silent_skip_cex :
    devSwNotSeq.software_information = Except.ok SwInfo.notSeq ∧
    (update_static_attrs "cam" devSwNotSeq []).2 = [] ∧
    (update_static_attrs "cam" devSwNotSeq []).1 =
      [("hardware_version", some "1.0"), ("machine_name", some "AMC"),
       ("serial_number", some "42")] :=
  ⟨rfl, rfl, rfl⟩

/-- C7 (amended): whenever `software_information` fails two-element
unpacking, the two software attributes are skipped and every static
attribute written earlier in the refresh is unaffected; the parse error is
logged exactly when the value was an iterable of the wrong length — a
non-decomposable value (or a failed fetch) is skipped silently. -/
theorem sw_info_malformed_skips (name : String) (dev : Device) (m : AttrMap)
    (h : swMalformed dev.software_information = true) :
    (update_static_attrs name dev m).1 = (update_hw_mn_sn name dev m).1 ∧
    (LogEntry.errSwInfo name ∈ (update_static_attrs name dev m).2 ↔
      ∃ xs, dev.software_information = Except.ok (SwInfo.seq xs) ∧
        xs.length ≠ 2) := by
  rcases hs : dev.software_information with e | sw
  · constructor
    · simp [update_static_attrs, get_cam_attr, hs]
    · simp [update_static_attrs, get_cam_attr, hs,
        errSwInfo_not_in_hw_mn_sn]
  · rw [hs] at h
    rcases sw with _ | xs
    · constructor
      · simp [update_static_attrs, get_cam_attr, hs]
      · simp [update_static_attrs, get_cam_attr, hs,
          errSwInfo_not_in_hw_mn_sn]
    · simp only [swMalformed, decide_eq_true_eq] at h
      rcases xs with _ | ⟨a, xs⟩
      · constructor
        · simp [update_static_attrs, get_cam_attr, hs]
        · simp [update_static_attrs, get_cam_attr, hs,
            errSwInfo_not_in_hw_mn_sn]
      · rcases xs with _ | ⟨b, xs⟩
        · constructor
          · simp [update_static_attrs, get_cam_attr, hs]
          · simp [update_static_attrs, get_cam_attr, hs,
              errSwInfo_not_in_hw_mn_sn]
        · rcases xs with _ | ⟨c, xs⟩
          · exact absurd h (by simp)
          · constructor
            · simp [update_static_attrs, get_cam_attr, hs]
            · simp [update_static_attrs, get_cam_attr, hs,
                errSwInfo_not_in_hw_mn_sn]

/-- C7 witness: the non-iterable case, concretely. -/
theorem sw_info_malformed_skips_witness :
    swMalformed devSwNotSeq.software_information = true ∧
    (update_static_attrs "cam" devSwNotSeq []).1 =
      (update_hw_mn_sn "cam" devSwNotSeq []).1 :=
  ⟨rfl, (sw_info_malformed_skips "cam" devSwNotSeq [] rfl).1⟩

-- C8

/-- C8: the Service Router targets every registered adapter when no
entity-id list is given; with an explicit list it targets exactly the
registered adapters whose entity id is in the list; and when the list
intersects no registered adapter, no command is dispatched (and the
handler returns without error). -/
theorem service_router_targets (registry : List CamRef) (ids : List String)
    (svc : SvcName) :
    target_cameras registry none = registry ∧
    (∀ c : CamRef, c ∈ target_cameras registry (some ids) ↔
      c ∈ registry ∧ c.entity_id ∈ ids) ∧
    ((∀ c ∈ registry, c.entity_id ∉ ids) →
      svc_dispatches registry (some ids) svc = []) := by
  refine ⟨?_, ?_, ?_⟩
  · simp [target_cameras]
  · intro c
    simp only [target_cameras, List.mem_filter]
    constructor
    · rintro ⟨hc, hm⟩
      exact ⟨hc, List.elem_iff.mp hm⟩
    · rintro ⟨hc, hm⟩
      exact ⟨hc, List.elem_iff.mpr hm⟩
  · intro hnone
    have ht : target_cameras registry (some ids) = [] := by
      rw [target_cameras, List.filter_eq_nil_iff]
      intro c hc
      simpa using fun hm => hnone c hc (List.elem_iff.mp hm)
    simp [svc_dispatches, ht]

/-- C8 witness: an explicit entity-id list disjoint from the registry
dispatches nothing. -/
theorem service_router_targets_witness :
    svc_dispatches [⟨"camera.a", true⟩] (some ["camera.b"])
      SvcName.enableRec = [] := by
  refine (service_router_targets [⟨"camera.a", true⟩] ["camera.b"]
    SvcName.enableRec).2.2 ?_
  intro c hc
  simp only [List.mem_singleton] at hc
  subst hc
  decide

-- C9

/-- C9: in rtsp mode the stream handoff opens the transcoder, relays, and
invokes `stream.close` exactly once, as the last action, on every exit path
of the relay — normal return, error, and cancellation alike. -/
theorem rtsp_stream_always_closed (mjpegUrl rtspUrl extra : String)
    (outcome : RelayOutcome) :
    handle_async_mjpeg_stream .rtsp mjpegUrl rtspUrl extra outcome =
      [.openCamera rtspUrl extra, .proxyStream, .closeStream] ∧
    (handle_async_mjpeg_stream .rtsp mjpegUrl rtspUrl extra outcome).count
      StreamAction.closeStream = 1 := by
  cases outcome <;> exact ⟨rfl, rfl⟩

-- C10

/-- C10: once the static-attribute dict is non-empty — however partially
populated — a refresh attempts no static-attribute read and leaves the
dict exactly as it was (hence still non-empty, so no later refresh ever
completes the missing entries). -/
theorem static_attrs_fetch_gated (name : String) (dev : Device)
    (s : CamState) (h : s.static_attrs ≠ []) :
    ∀ r, update name dev s = some r →
      r.reads.filter isStaticRead = [] ∧
      r.state.static_attrs = s.static_attrs ∧
      r.state.static_attrs ≠ [] := by
  obtain ⟨hstat, hreads⟩ := pre_refresh_static_stable name dev s h
  rcases hpre : pre_refresh name dev s with ⟨s2, reads0, log0⟩
  rw [hpre] at hstat hreads
  have hstat' : s2.static_attrs ≠ [] := hstat ▸ h
  intro r hr
  simp only [update] at hr
  rw [hpre] at hr
  repeat' split at hr
  all_goals cases hr
  all_goals exact ⟨by simp [List.filter_append, hreads, isStaticRead],
    hstat, hstat'⟩

/-- C10 witness: a partially populated dict blocks all static reads. -/
theorem static_attrs_fetch_gated_witness :
    statePartial.static_attrs ≠ [] ∧
    (update "cam" devAllOk statePartial).isSome = true ∧
    (∀ r, update "cam" devAllOk statePartial = some r →
      r.reads.filter isStaticRead = [] ∧
      r.state.static_attrs = statePartial.static_attrs ∧
      r.state.static_attrs ≠ []) :=
  ⟨by simp [statePartial, initState], rfl,
    static_attrs_fetch_gated "cam" devAllOk statePartial
      (by simp [statePartial, initState])⟩

end Amcrest
